import Mathlib

/-!
Shallow embedding of the Involve Simulator frontend controller: the `App`
component (src/unnamed/part_000), the `ControlPanel` and `QuoteCard`
components (src/frontend/src/components/ControlPanel.tsx), the
`AssetManager` page (src/frontend/src/pages/AssetManager.tsx), and the data
contracts (src/frontend/src/types.ts); together with theorems settling
specification claims C1 through C10.

Modelling conventions:
JavaScript numbers are modelled as rationals (ℚ). Asynchronous network
calls are modelled by passing their settlement outcome explicitly
(`Option` for a GET/POST body or `Bool` for success of a mutation call).
React `useState` state is modelled by explicit state passing: each event
handler becomes a function from the pre-state (plus call outcomes) to the
post-state together with the observable effects it emits (network calls
issued, operator-visible alert messages, cache refreshes triggered).
-/

namespace InvolveSim

/-- Platform catalog entity, from `interface Platform` in
src/frontend/src/types.ts. -/
structure Platform where
  id : ℚ
  name : String
  platform_type : String
  capex : ℚ
  launch_cost : ℚ
  consumables_cost : ℚ
  max_payload_mass : ℚ
  min_altitude : ℚ
  max_altitude : ℚ
  max_duration_days : ℚ
  amortization_flights : ℚ
  day_power : ℚ
  night_power : ℚ
  battery_capacity : ℚ
deriving DecidableEq

/-- Payload catalog entity, from `interface Payload` in
src/frontend/src/types.ts. -/
structure Payload where
  id : ℚ
  name : String
  capex : ℚ
  mass : ℚ
  power_consumption : ℚ
  resolution_gsd : ℚ
  fov : ℚ
  daily_data_rate_gb : ℚ
  market : String
deriving DecidableEq

/-- Outbound evaluation request, from `interface SimulationRequest` in
src/frontend/src/types.ts. -/
structure SimulationRequest where
  platform_id : ℚ
  payload_id : ℚ
  lat : ℚ
  lon : ℚ
  month : ℚ
  duration_days : ℚ
  target_radius_km : ℚ
  margin_percent : ℚ
deriving DecidableEq

/-- Quote breakdown, from `interface QuoteBreakdown` in
src/frontend/src/types.ts. -/
structure QuoteBreakdown where
  platform_amortized : ℚ
  payload_amortized : ℚ
  ops_cost : ℚ
  data_cost : ℚ
  overprovisioning_factor : ℚ
deriving DecidableEq

/-- The `power_analysis` member of `SimulationResponse` in
src/frontend/src/types.ts. -/
structure PowerAnalysis where
  is_feasible : Bool
  survives_night : Bool
  duty_cycle_percent : ℚ
  day_hours : ℚ
  night_hours : ℚ
  margin_wh : ℚ
  status : String
deriving DecidableEq

/-- The `flight_analysis` member of `SimulationResponse` in
src/frontend/src/types.ts. -/
structure FlightAnalysis where
  wind_volatility_score : ℚ
  mean_wind_speed_kmh : ℚ
  acs_correction_speed_kmh : ℚ
  station_keeping_prob : ℚ
  overprovisioning_factor : ℚ
  drift_warning : Bool
  drift_risk : String
  fleet_size_recommended : ℚ
deriving DecidableEq

/-- The `quote` member of `SimulationResponse` in
src/frontend/src/types.ts. -/
structure Quote where
  breakdown : QuoteBreakdown
  total_cost : ℚ
  price_quoted : ℚ
  margin_absolute : ℚ
  margin_percent : ℚ
deriving DecidableEq

/-- Inbound evaluation result, from `interface SimulationResponse` in
src/frontend/src/types.ts. -/
structure SimulationResponse where
  is_feasible : Bool
  warnings : List String
  power_analysis : PowerAnalysis
  flight_analysis : FlightAnalysis
  quote : Quote
deriving DecidableEq

/-- The `useState` slots of the `App` component in src/unnamed/part_000:
catalog lists, modal flag, selection controls, map center, and the
evaluation session (`loading` flag plus result-or-absent). -/
structure AppState where
  platforms : List Platform
  payloads : List Payload
  showAssetManager : Bool
  selectedPlatformId : ℚ
  selectedPayloadId : ℚ
  month : ℚ
  duration : ℚ
  radius : ℚ
  margin : ℚ
  centerLat : ℚ
  centerLon : ℚ
  loading : Bool
  result : Option SimulationResponse
deriving DecidableEq

/-- The request object literal built inside `handleSimulate`
(src/unnamed/part_000 lines 61-70): every field is copied from the
component state except `margin_percent`, which is `margin / 100.0`. -/
def buildRequest (st : AppState) : SimulationRequest :=
  { platform_id := st.selectedPlatformId
    payload_id := st.selectedPayloadId
    lat := st.centerLat
    lon := st.centerLon
    month := st.month
    duration_days := st.duration
    target_radius_km := st.radius
    margin_percent := st.margin / 100 }

/-- Clicking the simulate button (ControlPanel.tsx lines 148-154). The
button carries `disabled={loading}`, so while an evaluation is in flight a
click fires no handler: the state is unchanged and no request is
dispatched (second component `none`). When enabled, the click runs the
start of `handleSimulate` (src/unnamed/part_000 lines 58-72): it sets
`loading` and posts the built request. -/
def clickSimulate (st : AppState) : AppState × Option SimulationRequest :=
  if st.loading then (st, none)
  else ({ st with loading := true }, some (buildRequest st))

/-- Settlement of the evaluation call inside `handleSimulate`
(src/unnamed/part_000 lines 73-79): on success (`some r`) the response is
stored via `setResult(res.data)`; on failure (`none`) the catch block runs
`alert("Simulation Failed")` and does not touch `result`; the `finally`
block clears `loading` in both branches. The second component is the list
of operator-visible alert messages emitted. -/
def settleSimulate (st : AppState) : Option SimulationResponse → AppState × List String
  | some r => ({ st with loading := false, result := some r }, [])
  | none => ({ st with loading := false }, ["Simulation Failed"])

/-- Power diagnostics rendered by `QuoteCard` (ControlPanel.tsx lines
216-230). -/
structure PowerSectionView where
  status : String
  duty_cycle_percent : ℚ
  night_hours : ℚ
  margin_wh : ℚ
deriving DecidableEq

/-- Flight/drift diagnostics rendered by `QuoteCard` (ControlPanel.tsx
lines 233-260). -/
structure FlightSectionView where
  drift_warning : Bool
  drift_risk : String
  mean_wind_speed_kmh : ℚ
  acs_correction_speed_kmh : ℚ
  overprovisioning_factor : ℚ
  fleet_size_recommended : ℚ
deriving DecidableEq

/-- The quote block rendered by `QuoteCard` (ControlPanel.tsx lines
264-305): the quoted price and the four breakdown lines (platform,
payload, ops plus data combined, net margin). -/
structure QuoteSectionView where
  price_quoted : ℚ
  line_platform_amortized : ℚ
  line_payload_amortized : ℚ
  line_ops_and_data : ℚ
  line_margin_absolute : ℚ
  margin_percent_label : ℚ
deriving DecidableEq

/-- What `QuoteCard` renders: either the placeholder (result absent), or
the diagnostic sections plus an optional quote section. -/
structure QuoteCardView where
  placeholder : Bool
  powerSection : Option PowerSectionView
  flightSection : Option FlightSectionView
  quoteSection : Option QuoteSectionView
deriving DecidableEq

/-- The `QuoteCard` component (ControlPanel.tsx lines 187-305). With no
result it returns the placeholder card (lines 188-194). With a result it
always renders the power and flight sections, and renders the quote
section only under the `{is_feasible && (...)}` guard at line 264. -/
def renderQuoteCard : Option SimulationResponse → QuoteCardView
  | none =>
    { placeholder := true
      powerSection := none
      flightSection := none
      quoteSection := none }
  | some r =>
    { placeholder := false
      powerSection := some
        { status := r.power_analysis.status
          duty_cycle_percent := r.power_analysis.duty_cycle_percent
          night_hours := r.power_analysis.night_hours
          margin_wh := r.power_analysis.margin_wh }
      flightSection := some
        { drift_warning := r.flight_analysis.drift_warning
          drift_risk := r.flight_analysis.drift_risk
          mean_wind_speed_kmh := r.flight_analysis.mean_wind_speed_kmh
          acs_correction_speed_kmh := r.flight_analysis.acs_correction_speed_kmh
          overprovisioning_factor := r.flight_analysis.overprovisioning_factor
          fleet_size_recommended := r.flight_analysis.fleet_size_recommended }
      quoteSection :=
        if r.is_feasible then
          some
            { price_quoted := r.quote.price_quoted
              line_platform_amortized := r.quote.breakdown.platform_amortized
              line_payload_amortized := r.quote.breakdown.payload_amortized
              line_ops_and_data := r.quote.breakdown.ops_cost + r.quote.breakdown.data_cost
              line_margin_absolute := r.quote.margin_absolute
              margin_percent_label := r.quote.margin_percent }
        else none }

/-- The `loadAssets` handler of `App` (src/unnamed/part_000 lines 32-43).
The two GETs are awaited in sequence inside one try block and the four
`set` calls all come after both awaits, so if either read fails
(`none`) the catch block runs and no state is written. On success both
lists are replaced and each selection is seeded with the first entry id
when the list is non-empty and the current selection is still `0`. -/
def loadAssets (st : AppState) (pRes : Option (List Platform))
    (plRes : Option (List Payload)) : AppState :=
  match pRes, plRes with
  | some ps, some pls =>
    { st with
      platforms := ps
      payloads := pls
      selectedPlatformId :=
        match ps with
        | [] => st.selectedPlatformId
        | p :: _ => if st.selectedPlatformId = 0 then p.id else st.selectedPlatformId
      selectedPayloadId :=
        match pls with
        | [] => st.selectedPayloadId
        | q :: _ => if st.selectedPayloadId = 0 then q.id else st.selectedPayloadId }
  | _, _ => st

/-- The two tabs of the `AssetManager` overlay
(src/frontend/src/pages/AssetManager.tsx line 71). -/
inductive Tab where
  | platforms
  | payloads
deriving DecidableEq

/-- Value stored in an `editingPlatform`/`editingPayload` slot when it is
non-null: `blank` models `{} as Platform` (all fields, including `id`,
left undefined — set by the add-new button), `entity a` models the row's
entity passed by the edit button. -/
inductive EditSlot (α : Type) where
  | blank
  | entity (a : α)
deriving DecidableEq

/-- The platform form draft held by `PlatformForm`'s local `form` state
(AssetManager.tsx lines 301-316): all `Platform` fields except `id`. -/
structure PlatformFormData where
  name : String
  platform_type : String
  capex : ℚ
  launch_cost : ℚ
  consumables_cost : ℚ
  max_payload_mass : ℚ
  min_altitude : ℚ
  max_altitude : ℚ
  max_duration_days : ℚ
  amortization_flights : ℚ
  day_power : ℚ
  night_power : ℚ
  battery_capacity : ℚ
deriving DecidableEq

/-- The payload form draft held by `PayloadForm`'s local `form` state
(AssetManager.tsx lines 465-474): all `Payload` fields except `id`. -/
structure PayloadFormData where
  name : String
  capex : ℚ
  mass : ℚ
  power_consumption : ℚ
  resolution_gsd : ℚ
  fov : ℚ
  daily_data_rate_gb : ℚ
  market : String
deriving DecidableEq

/-- Network calls the `AssetManager` can issue (axios calls in
AssetManager.tsx lines 84-124). -/
inductive NetCall where
  | getPlatforms
  | getPayloads
  | postPlatform (data : PlatformFormData)
  | putPlatform (id : ℚ) (data : PlatformFormData)
  | deletePlatformCall (id : ℚ)
  | postPayload (data : PayloadFormData)
  | putPayload (id : ℚ) (data : PayloadFormData)
  | deletePayloadCall (id : ℚ)
deriving DecidableEq

/-- The `useState` slots of the `AssetManager` component
(AssetManager.tsx lines 70-77): active tab, cached lists, the two editing
slots, and the `isCreating` flag. -/
structure ManagerState where
  activeTab : Tab
  platforms : List Platform
  payloads : List Payload
  editingPlatform : Option (EditSlot Platform)
  editingPayload : Option (EditSlot Payload)
  isCreating : Bool
deriving DecidableEq

/-- The `fetchData` handler (AssetManager.tsx lines 84-90): both GETs run
under one `Promise.all` whose result is awaited before either `set` call,
so if either read fails (`none`) the awaited promise rejects and neither
list is written; on success both are replaced. -/
def fetchData (st : ManagerState) (pRes : Option (List Platform))
    (plRes : Option (List Payload)) : ManagerState :=
  match pRes, plRes with
  | some ps, some pls => { st with platforms := ps, payloads := pls }
  | _, _ => st

/-- The optional chain `editingPlatform?.id` / `editingPayload?.id`: a
null slot or a blank entity (`{} as ...`, all fields undefined) yields
undefined (`none`); an entity yields its `id` field. -/
def chainId {α : Type} (idOf : α → ℚ) : Option (EditSlot α) → Option ℚ
  | none => none
  | some EditSlot.blank => none
  | some (EditSlot.entity a) => some (idOf a)

/-- The network call dispatched by `savePlatform` (AssetManager.tsx lines
104-109): `if (editingPlatform?.id)` — JavaScript truthiness, so undefined
and `0` both select the POST branch — issues a PUT keyed by that id,
otherwise a POST. -/
def savePlatformCall (slot : Option (EditSlot Platform))
    (data : PlatformFormData) : NetCall :=
  match chainId Platform.id slot with
  | some i => if i ≠ 0 then NetCall.putPlatform i data else NetCall.postPlatform data
  | none => NetCall.postPlatform data

/-- The network call dispatched by `savePayload` (AssetManager.tsx lines
115-120), by the same truthiness test on `editingPayload?.id`. -/
def savePayloadCall (slot : Option (EditSlot Payload))
    (data : PayloadFormData) : NetCall :=
  match chainId Payload.id slot with
  | some i => if i ≠ 0 then NetCall.putPayload i data else NetCall.postPayload data
  | none => NetCall.postPayload data

/-- Result of one save or delete step: the post-state of the component,
the form draft still mounted afterwards (if any), the network calls
issued, whether a `fetchData` cache refresh was triggered, and the
operator-visible alert messages emitted. -/
structure MutationResult (δ : Type) where
  state : ManagerState
  draft : Option δ
  calls : List NetCall
  refreshTriggered : Bool
  alerts : List String
deriving DecidableEq

/-- The `savePlatform` handler (AssetManager.tsx lines 104-113) applied
while the platform form holds draft `data`. `callOk` is the outcome of
the awaited axios call. On success the lines after the await run: the
session is closed (`setEditingPlatform(null)`, `setIsCreating(false)`)
and `fetchData()` is triggered; the form unmounts, discarding the draft.
On failure the await throws: none of those lines run, the state is
untouched, the still-mounted form keeps its draft, and — because nothing
on this path catches the rejection (`PlatformForm.handleSubmit` calls
`onSave(form)` without awaiting it) — no alert or other operator-visible
message is emitted. -/
def savePlatform (st : ManagerState) (data : PlatformFormData)
    (callOk : Bool) : MutationResult PlatformFormData :=
  if callOk then
    { state := { st with editingPlatform := none, isCreating := false }
      draft := none
      calls := [savePlatformCall st.editingPlatform data]
      refreshTriggered := true
      alerts := [] }
  else
    { state := st
      draft := some data
      calls := [savePlatformCall st.editingPlatform data]
      refreshTriggered := false
      alerts := [] }

/-- The `savePayload` handler (AssetManager.tsx lines 115-124), with the
same structure as `savePlatform`. -/
def savePayload (st : ManagerState) (data : PayloadFormData)
    (callOk : Bool) : MutationResult PayloadFormData :=
  if callOk then
    { state := { st with editingPayload := none, isCreating := false }
      draft := none
      calls := [savePayloadCall st.editingPayload data]
      refreshTriggered := true
      alerts := [] }
  else
    { state := st
      draft := some data
      calls := [savePayloadCall st.editingPayload data]
      refreshTriggered := false
      alerts := [] }

/-- Result of a delete click: post-state, network calls issued and
whether a cache refresh was triggered. -/
structure DeleteResult where
  state : ManagerState
  calls : List NetCall
  refreshTriggered : Bool
deriving DecidableEq

/-- The `deletePlatform` handler (AssetManager.tsx lines 92-96).
`confirmed` is the operator's answer to the blocking `confirm(...)`
dialog: on decline the handler returns at once with no call; on
confirmation the DELETE for that id is issued and, if it succeeds
(`callOk`), `fetchData()` is triggered (on a failed call the await throws
before `fetchData()`). The component state itself is never written by
this handler. -/
def deletePlatform (st : ManagerState) (id : ℚ) (confirmed : Bool)
    (callOk : Bool) : DeleteResult :=
  if confirmed then
    if callOk then
      { state := st, calls := [NetCall.deletePlatformCall id], refreshTriggered := true }
    else
      { state := st, calls := [NetCall.deletePlatformCall id], refreshTriggered := false }
  else
    { state := st, calls := [], refreshTriggered := false }

/-- The `deletePayload` handler (AssetManager.tsx lines 98-102), with the
same structure as `deletePlatform`. -/
def deletePayload (st : ManagerState) (id : ℚ) (confirmed : Bool)
    (callOk : Bool) : DeleteResult :=
  if confirmed then
    if callOk then
      { state := st, calls := [NetCall.deletePayloadCall id], refreshTriggered := true }
    else
      { state := st, calls := [NetCall.deletePayloadCall id], refreshTriggered := false }
  else
    { state := st, calls := [], refreshTriggered := false }

/-- Whether a form modal is open: `PlatformForm` renders iff
`editingPlatform` is non-null, `PayloadForm` iff `editingPayload` is
non-null (AssetManager.tsx lines 217-235). Each form renders as a
`fixed inset-0` full-screen overlay, so while either is open no button
behind it (tabs, list rows, add buttons) can receive a click. -/
def formOpen (st : ManagerState) : Bool :=
  st.editingPlatform.isSome || st.editingPayload.isSome

/-- User-interface events of the `AssetManager`. Click events on elements
behind a form overlay are guarded in `mgrStep`; the `confirm(...)` dialog
of a delete is synchronous and modal, so a whole delete interaction is a
single event carrying the operator's answer; settlements of asynchronous
`fetchData` refreshes arrive as their own `refreshSettled` events. -/
inductive MgrEvent where
  | clickTab (t : Tab)
  | clickAddPlatform
  | clickEditPlatform (p : Platform)
  | clickDeletePlatform (p : Platform) (confirmed : Bool) (callOk : Bool)
  | clickAddPayload
  | clickEditPayload (q : Payload)
  | clickDeletePayload (q : Payload) (confirmed : Bool) (callOk : Bool)
  | submitPlatformForm (data : PlatformFormData) (callOk : Bool)
  | submitPayloadForm (data : PayloadFormData) (callOk : Bool)
  | cancelPlatformForm
  | cancelPayloadForm
  | refreshSettled (pRes : Option (List Platform)) (plRes : Option (List Payload))

/-- One step of the `AssetManager` state machine. Guards record which DOM
element can actually fire the event: list-area buttons exist only on
their tab and for rows of the current list, and are unreachable while a
form overlay is open (`formOpen`, see its docstring); a form's save or
cancel button exists only while that form is mounted. -/
def mgrStep (st : ManagerState) : MgrEvent → ManagerState
  | MgrEvent.clickTab t =>
    if formOpen st then st else { st with activeTab := t }
  | MgrEvent.clickAddPlatform =>
    if st.activeTab = Tab.platforms ∧ formOpen st = false then
      { st with isCreating := true, editingPlatform := some EditSlot.blank }
    else st
  | MgrEvent.clickEditPlatform p =>
    if st.activeTab = Tab.platforms ∧ formOpen st = false ∧ p ∈ st.platforms then
      { st with editingPlatform := some (EditSlot.entity p) }
    else st
  | MgrEvent.clickDeletePlatform p confirmed callOk =>
    if st.activeTab = Tab.platforms ∧ formOpen st = false ∧ p ∈ st.platforms then
      (deletePlatform st p.id confirmed callOk).state
    else st
  | MgrEvent.clickAddPayload =>
    if st.activeTab = Tab.payloads ∧ formOpen st = false then
      { st with isCreating := true, editingPayload := some EditSlot.blank }
    else st
  | MgrEvent.clickEditPayload q =>
    if st.activeTab = Tab.payloads ∧ formOpen st = false ∧ q ∈ st.payloads then
      { st with editingPayload := some (EditSlot.entity q) }
    else st
  | MgrEvent.clickDeletePayload q confirmed callOk =>
    if st.activeTab = Tab.payloads ∧ formOpen st = false ∧ q ∈ st.payloads then
      (deletePayload st q.id confirmed callOk).state
    else st
  | MgrEvent.submitPlatformForm data callOk =>
    if st.editingPlatform.isSome then (savePlatform st data callOk).state else st
  | MgrEvent.submitPayloadForm data callOk =>
    if st.editingPayload.isSome then (savePayload st data callOk).state else st
  | MgrEvent.cancelPlatformForm =>
    if st.editingPlatform.isSome then
      { st with editingPlatform := none, isCreating := false }
    else st
  | MgrEvent.cancelPayloadForm =>
    if st.editingPayload.isSome then
      { st with editingPayload := none, isCreating := false }
    else st
  | MgrEvent.refreshSettled pRes plRes => fetchData st pRes plRes

/-- The initial `AssetManager` state (the `useState` initialisers at
AssetManager.tsx lines 70-76). -/
def mgrInit : ManagerState :=
  { activeTab := Tab.platforms
    platforms := []
    payloads := []
    editingPlatform := none
    editingPayload := none
    isCreating := false }

/-- States of the `AssetManager` reachable from its initial state by
user-interface events and call settlements. -/
inductive MgrReachable : ManagerState → Prop
  | init : MgrReachable mgrInit
  | step (s : ManagerState) (e : MgrEvent) :
      MgrReachable s → MgrReachable (mgrStep s e)

/-- A concrete platform entity used to instantiate theorems. -/
def platA : Platform :=
  { id := 7
    name := "Stratos-1"
    platform_type := "Super-Pressure"
    capex := 30000
    launch_cost := 2000
    consumables_cost := 1000
    max_payload_mass := 15
    min_altitude := 18
    max_altitude := 23
    max_duration_days := 60
    amortization_flights := 5
    day_power := 100
    night_power := 40
    battery_capacity := 1500 }

/-- A second concrete platform entity. -/
def platB : Platform :=
  { platA with id := 8, name := "Stratos-2" }

/-- A concrete platform entity whose id is zero. -/
def platZero : Platform :=
  { platA with id := 0, name := "Stratos-0" }

/-- A concrete payload entity used to instantiate theorems. -/
def payA : Payload :=
  { id := 4
    name := "SAR-X"
    capex := 10000
    mass := 3
    power_consumption := 30
    resolution_gsd := 1
    fov := 20
    daily_data_rate_gb := 50
    market := "Maritime" }

/-- The initial `App` state (the `useState` initialisers in
src/unnamed/part_000 lines 12-29): empty catalog, zero selections, month
6, duration 30, radius 50, margin 30, center over Italy, idle session. -/
def appZero : AppState :=
  { platforms := []
    payloads := []
    showAssetManager := false
    selectedPlatformId := 0
    selectedPayloadId := 0
    month := 6
    duration := 30
    radius := 50
    margin := 30
    centerLat := 45
    centerLon := 10
    loading := false
    result := none }

/-- An `App` state whose selections are already seeded. -/
def appSeeded : AppState :=
  { appZero with selectedPlatformId := 7, selectedPayloadId := 4 }

/-- An `App` state with an evaluation in flight. -/
def appInFlight : AppState :=
  { appZero with loading := true }

/-- A concrete feasible evaluation result used to instantiate C1. -/
def sampleResponse : SimulationResponse :=
  { is_feasible := true
    warnings := []
    power_analysis :=
      { is_feasible := true
        survives_night := true
        duty_cycle_percent := 100
        day_hours := 14
        night_hours := 10
        margin_wh := 250
        status := "OK" }
    flight_analysis :=
      { wind_volatility_score := 1
        mean_wind_speed_kmh := 40
        acs_correction_speed_kmh := 50
        station_keeping_prob := 9 / 10
        overprovisioning_factor := 1
        drift_warning := false
        drift_risk := "Low"
        fleet_size_recommended := 1 }
    quote :=
      { breakdown :=
          { platform_amortized := 8000
            payload_amortized := 1000
            ops_cost := 3000
            data_cost := 500
            overprovisioning_factor := 1 }
        total_cost := 12500
        price_quoted := 14286
        margin_absolute := 1786
        margin_percent := 30 } }

/-- Claim C1 is false on the code: when an evaluation call fails while a
previous `SimulationResponse` is stored, the catch block of
`handleSimulate` (src/unnamed/part_000 lines 74-77) only alerts and never
runs `setResult(null)`, so the stored result is retained — not cleared —
and `QuoteCard` keeps displaying it rather than the placeholder. Concrete
input: state with `result = some sampleResponse`, failing call. -/
theorem c1_counterexample :
    (settleSimulate { appZero with loading := true, result := some sampleResponse }
        none).1.result = some sampleResponse ∧
    (settleSimulate { appZero with loading := true, result := some sampleResponse }
        none).1.result ≠ none ∧
    (renderQuoteCard (settleSimulate
        { appZero with loading := true, result := some sampleResponse }
        none).1.result).placeholder = false ∧
    (settleSimulate { appZero with loading := true, result := some sampleResponse }
        none).2 = ["Simulation Failed"] := by
  refine ⟨rfl, by simp [settleSimulate], rfl, rfl⟩

/-- Claim C1 (amended): after a failed evaluation call settles, the
operator is notified ("Simulation Failed") and the in-flight flag clears,
but the previously stored `SimulationResponse` is retained unchanged, not
cleared; if one was present it remains displayed. -/
theorem c1_failure_retains_result (st : AppState) :
    (settleSimulate st none).1.result = st.result ∧
    (settleSimulate st none).1.loading = false ∧
    (settleSimulate st none).2 = ["Simulation Failed"] :=
  ⟨rfl, rfl, rfl⟩

/-- Claim C2: while an evaluation is in flight (`loading`), the simulate
button is disabled, so a submit leaves the whole component state
unchanged and dispatches no second evaluation request. -/
theorem c2_single_flight (st : AppState) (h : st.loading = true) :
    clickSimulate st = (st, none) := by
  simp [clickSimulate, h]

/-- Witness for C2 at the concrete in-flight state. -/
theorem c2_single_flight_witness : clickSimulate appInFlight = (appInFlight, none) :=
  c2_single_flight appInFlight rfl

/-- Claim C3: the request builder is a pure function of the selection
state; for margin in [10,50] the built request's `margin_percent` is
exactly `margin / 100` and every other field is copied verbatim. -/
theorem c3_request_builder (st : AppState)
    (h1 : 10 ≤ st.margin) (h2 : st.margin ≤ 50) :
    (buildRequest st).margin_percent = st.margin / 100 ∧
    (buildRequest st).platform_id = st.selectedPlatformId ∧
    (buildRequest st).payload_id = st.selectedPayloadId ∧
    (buildRequest st).lat = st.centerLat ∧
    (buildRequest st).lon = st.centerLon ∧
    (buildRequest st).month = st.month ∧
    (buildRequest st).duration_days = st.duration ∧
    (buildRequest st).target_radius_km = st.radius :=
  ⟨rfl, rfl, rfl, rfl, rfl, rfl, rfl, rfl⟩

/-- Witness for C3 at the concrete state with margin 30. -/
theorem c3_request_builder_witness :
    (buildRequest appSeeded).margin_percent = 30 / 100 ∧
    (buildRequest appSeeded).platform_id = appSeeded.selectedPlatformId :=
  ⟨(c3_request_builder appSeeded (by norm_num [appSeeded, appZero])
      (by norm_num [appSeeded, appZero])).1,
    (c3_request_builder appSeeded (by norm_num [appSeeded, appZero])
      (by norm_num [appSeeded, appZero])).2.1⟩

/-- Claim C4: with no settled result `QuoteCard` renders the placeholder;
with a result it always renders the power and flight diagnostic sections,
and renders the quote section — the quoted price and the four breakdown
lines — exactly when `is_feasible` is true. -/
theorem c4_result_presenter :
    (renderQuoteCard none).placeholder = true ∧
    (renderQuoteCard none).quoteSection = none ∧
    ∀ r : SimulationResponse,
      (renderQuoteCard (some r)).placeholder = false ∧
      (renderQuoteCard (some r)).powerSection.isSome = true ∧
      (renderQuoteCard (some r)).flightSection.isSome = true ∧
      ((renderQuoteCard (some r)).quoteSection.isSome = true ↔ r.is_feasible = true) ∧
      (r.is_feasible = true →
        (renderQuoteCard (some r)).quoteSection = some
          { price_quoted := r.quote.price_quoted
            line_platform_amortized := r.quote.breakdown.platform_amortized
            line_payload_amortized := r.quote.breakdown.payload_amortized
            line_ops_and_data := r.quote.breakdown.ops_cost + r.quote.breakdown.data_cost
            line_margin_absolute := r.quote.margin_absolute
            margin_percent_label := r.quote.margin_percent }) ∧
      (r.is_feasible = false → (renderQuoteCard (some r)).quoteSection = none) := by
  refine ⟨rfl, rfl, fun r => ⟨rfl, rfl, rfl, ?_, ?_, ?_⟩⟩
  · cases h : r.is_feasible <;> simp [renderQuoteCard, h]
  · intro h; simp [renderQuoteCard, h]
  · intro h; simp [renderQuoteCard, h]

/-- Witness for C4 at the concrete feasible and infeasible responses. -/
theorem c4_result_presenter_witness :
    (renderQuoteCard (some sampleResponse)).quoteSection.isSome = true ∧
    (renderQuoteCard (some { sampleResponse with is_feasible := false })).quoteSection
      = none :=
  ⟨((c4_result_presenter.2.2 sampleResponse).2.2.2.1).mpr rfl,
    ((c4_result_presenter.2.2 { sampleResponse with is_feasible := false }).2.2.2.2.2) rfl⟩

/-- Claim C5: after a successful refresh, a selection still at the zero
sentinel is seeded with the first entry's id of the fetched list, and a
selection already set to a nonzero value is left unchanged whatever the
fetched lists contain. -/
theorem c5_catalog_bootstrap (st : AppState) (p : Platform) (ps : List Platform)
    (q : Payload) (qs : List Payload) (ps2 : List Platform) (qs2 : List Payload) :
    (st.selectedPlatformId = 0 →
      (loadAssets st (some (p :: ps)) (some qs2)).selectedPlatformId = p.id) ∧
    (st.selectedPayloadId = 0 →
      (loadAssets st (some ps2) (some (q :: qs))).selectedPayloadId = q.id) ∧
    (st.selectedPlatformId ≠ 0 →
      (loadAssets st (some ps2) (some qs2)).selectedPlatformId = st.selectedPlatformId) ∧
    (st.selectedPayloadId ≠ 0 →
      (loadAssets st (some ps2) (some qs2)).selectedPayloadId = st.selectedPayloadId) := by
  refine ⟨fun h => ?_, fun h => ?_, fun h => ?_, fun h => ?_⟩
  · simp [loadAssets, h]
  · simp [loadAssets, h]
  · cases ps2 <;> simp [loadAssets, h]
  · cases qs2 <;> simp [loadAssets, h]

/-- Witness for C5: the first refresh over `[platA, platB]` seeds the
platform selection with `platA.id = 7`; a later refresh with the reordered
list `[platB, platA]` leaves the seeded selection unchanged. -/
theorem c5_catalog_bootstrap_witness :
    (loadAssets appZero (some [platA, platB]) (some [payA])).selectedPlatformId
      = platA.id ∧
    (loadAssets appSeeded (some [platB, platA]) (some [payA])).selectedPlatformId
      = appSeeded.selectedPlatformId ∧
    (loadAssets appZero (some [platA, platB]) (some [payA])).selectedPayloadId
      = payA.id :=
  ⟨(c5_catalog_bootstrap appZero platA [platB] payA [] [platA, platB] [payA]).1 rfl,
    (c5_catalog_bootstrap appSeeded platA [] payA [] [platB, platA] [payA]).2.2.1
      (by norm_num [appSeeded, appZero]),
    (c5_catalog_bootstrap appZero platA [] payA [] [platA, platB] []).2.1 rfl⟩

/-- Claim C6: a catalog refresh is atomic. In `loadAssets` both awaits
precede every state write and share one try block, and in `fetchData`
both reads sit under one awaited `Promise.all`, so if either read fails
the whole pre-state is kept (no partial update), and on full success both
lists are replaced. -/
theorem c6_refresh_atomic (st : AppState) (mst : ManagerState)
    (pRes : Option (List Platform)) (plRes : Option (List Payload)) :
    ((pRes = none ∨ plRes = none) →
      loadAssets st pRes plRes = st ∧ fetchData mst pRes plRes = mst) ∧
    (∀ ps pls,
      (loadAssets st (some ps) (some pls)).platforms = ps ∧
      (loadAssets st (some ps) (some pls)).payloads = pls ∧
      (fetchData mst (some ps) (some pls)).platforms = ps ∧
      (fetchData mst (some ps) (some pls)).payloads = pls) := by
  constructor
  · rintro (h | h) <;> subst h
    · exact ⟨rfl, rfl⟩
    · cases pRes <;> exact ⟨rfl, rfl⟩
  · exact fun ps pls => ⟨rfl, rfl, rfl, rfl⟩

/-- Witness for C6: a refresh whose platform read fails keeps both cached
lists; a fully successful refresh replaces both. -/
theorem c6_refresh_atomic_witness :
    loadAssets appSeeded none (some [payA]) = appSeeded ∧
    fetchData mgrInit none (some [payA]) = mgrInit ∧
    (loadAssets appSeeded (some [platA]) (some [payA])).platforms = [platA] :=
  ⟨((c6_refresh_atomic appSeeded mgrInit none (some [payA])).1 (Or.inl rfl)).1,
    ((c6_refresh_atomic appSeeded mgrInit none (some [payA])).1 (Or.inl rfl)).2,
    ((c6_refresh_atomic appSeeded mgrInit (some [platA]) (some [payA])).2 [platA] [payA]).1⟩

/-- An `AssetManager` state with a platform edit session open on
`platA`. -/
def mgrEditing : ManagerState :=
  { mgrInit with platforms := [platA], editingPlatform := some (EditSlot.entity platA) }

/-- A mutated platform draft: `platA`'s fields with the name changed. -/
def draftMutated : PlatformFormData :=
  { name := "Stratos-1-renamed"
    platform_type := "Super-Pressure"
    capex := 30000
    launch_cost := 2000
    consumables_cost := 1000
    max_payload_mass := 15
    min_altitude := 18
    max_altitude := 23
    max_duration_days := 60
    amortization_flights := 5
    day_power := 100
    night_power := 40
    battery_capacity := 1500 }

/-- Claim C7 is false on the code in its error-surfacing conjunct. At the
concrete failing save below the session does remain open with the mutated
draft intact and no refresh fires, but no error reaches the operator:
`savePlatform` (AssetManager.tsx lines 104-113) has no catch and no
alert, and `PlatformForm.handleSubmit` invokes `onSave(form)` without
awaiting it, so the rejection is an unhandled promise with no
operator-visible notice — the emitted alert list is empty. -/
theorem c7_counterexample :
    (savePlatform mgrEditing draftMutated false).alerts = [] ∧
    (savePlatform mgrEditing draftMutated false).state = mgrEditing ∧
    (savePlatform mgrEditing draftMutated false).draft = some draftMutated ∧
    (savePlatform mgrEditing draftMutated false).refreshTriggered = false :=
  ⟨rfl, rfl, rfl, rfl⟩

/-- Claim C7 (amended): if the create/update call of a save fails, the
form session remains open with the draft field values intact (the
component state is completely unchanged and the mounted form keeps its
draft) and no refresh fires, but the error is not surfaced to the
operator (the rejection is unhandled — no message is emitted); the
session closes and a catalog cache refresh is triggered only on
success. -/
theorem c7_save_failure_keeps_session (st : ManagerState)
    (dP : PlatformFormData) (dQ : PayloadFormData) :
    (savePlatform st dP false).state = st ∧
    (savePlatform st dP false).draft = some dP ∧
    (savePlatform st dP false).refreshTriggered = false ∧
    (savePlatform st dP false).alerts = [] ∧
    (savePlatform st dP true).state.editingPlatform = none ∧
    (savePlatform st dP true).state.isCreating = false ∧
    (savePlatform st dP true).draft = none ∧
    (savePlatform st dP true).refreshTriggered = true ∧
    (savePayload st dQ false).state = st ∧
    (savePayload st dQ false).draft = some dQ ∧
    (savePayload st dQ false).refreshTriggered = false ∧
    (savePayload st dQ false).alerts = [] ∧
    (savePayload st dQ true).state.editingPayload = none ∧
    (savePayload st dQ true).refreshTriggered = true :=
  ⟨rfl, rfl, rfl, rfl, rfl, rfl, rfl, rfl, rfl, rfl, rfl, rfl, rfl, rfl⟩

/-- Claim C8: a declined delete issues no network call and changes
nothing; a confirmed delete issues exactly the one DELETE call keyed by
the entity's id and, when that call succeeds, triggers a catalog cache
refresh. -/
theorem c8_delete_gating (st : ManagerState) (i : ℚ) (callOk : Bool) :
    (deletePlatform st i false callOk
        = { state := st, calls := [], refreshTriggered := false } ∧
      deletePayload st i false callOk
        = { state := st, calls := [], refreshTriggered := false }) ∧
    ((deletePlatform st i true callOk).calls = [NetCall.deletePlatformCall i] ∧
      (deletePlatform st i true callOk).state = st ∧
      (callOk = true → (deletePlatform st i true callOk).refreshTriggered = true)) ∧
    ((deletePayload st i true callOk).calls = [NetCall.deletePayloadCall i] ∧
      (deletePayload st i true callOk).state = st ∧
      (callOk = true → (deletePayload st i true callOk).refreshTriggered = true)) := by
  cases callOk <;>
    exact ⟨⟨rfl, rfl⟩, ⟨rfl, rfl, fun h => by simp_all [deletePlatform]⟩,
      ⟨rfl, rfl, fun h => by simp_all [deletePayload]⟩⟩

/-- Witness for C8 at a concrete id on the initial manager state. -/
theorem c8_delete_gating_witness :
    (deletePlatform mgrInit 7 true true).calls = [NetCall.deletePlatformCall 7] ∧
    (deletePlatform mgrInit 7 true true).refreshTriggered = true ∧
    deletePlatform mgrInit 7 false true
      = { state := mgrInit, calls := [], refreshTriggered := false } ∧
    deletePayload mgrInit 4 false false
      = { state := mgrInit, calls := [], refreshTriggered := false } :=
  ⟨(c8_delete_gating mgrInit 7 true).2.1.1,
    (c8_delete_gating mgrInit 7 true).2.1.2.2 rfl,
    (c8_delete_gating mgrInit 7 true).1.1,
    (c8_delete_gating mgrInit 4 false).1.2⟩

/-- Claim C10: the save handlers decide between update and create by the
JavaScript truthiness of the optional chain `editing…?.id`: a PUT keyed
by the id is issued exactly when the chain yields a present, nonzero id;
an absent id (create session, blank entity) or an id equal to zero issues
a POST — in particular an edit session for an existing entity whose id is
zero issues a create. -/
theorem c10_save_dispatch (slotP : Option (EditSlot Platform))
    (slotQ : Option (EditSlot Payload)) (dP : PlatformFormData)
    (dQ : PayloadFormData) (p : Platform) (q : Payload) :
    (∀ i : ℚ, chainId Platform.id slotP = some i → i ≠ 0 →
      savePlatformCall slotP dP = NetCall.putPlatform i dP) ∧
    (chainId Platform.id slotP = none →
      savePlatformCall slotP dP = NetCall.postPlatform dP) ∧
    (chainId Platform.id slotP = some 0 →
      savePlatformCall slotP dP = NetCall.postPlatform dP) ∧
    (p.id = 0 →
      savePlatformCall (some (EditSlot.entity p)) dP = NetCall.postPlatform dP) ∧
    (∀ i : ℚ, chainId Payload.id slotQ = some i → i ≠ 0 →
      savePayloadCall slotQ dQ = NetCall.putPayload i dQ) ∧
    (chainId Payload.id slotQ = none →
      savePayloadCall slotQ dQ = NetCall.postPayload dQ) ∧
    (chainId Payload.id slotQ = some 0 →
      savePayloadCall slotQ dQ = NetCall.postPayload dQ) ∧
    (q.id = 0 →
      savePayloadCall (some (EditSlot.entity q)) dQ = NetCall.postPayload dQ) := by
  refine ⟨fun i hi hne => ?_, fun hn => ?_, fun h0 => ?_, fun hp => ?_,
    fun i hi hne => ?_, fun hn => ?_, fun h0 => ?_, fun hq => ?_⟩
  · simp [savePlatformCall, hi, hne]
  · simp [savePlatformCall, hn]
  · simp [savePlatformCall, h0]
  · simp [savePlatformCall, chainId, hp]
  · simp [savePayloadCall, hi, hne]
  · simp [savePayloadCall, hn]
  · simp [savePayloadCall, h0]
  · simp [savePayloadCall, chainId, hq]

/-- Witness for C10: editing `platA` (id 7) dispatches a PUT keyed by 7;
a create session (blank entity) dispatches a POST; editing the zero-id
entity `platZero` dispatches a POST rather than a PUT. -/
theorem c10_save_dispatch_witness :
    savePlatformCall (some (EditSlot.entity platA)) draftMutated
      = NetCall.putPlatform 7 draftMutated ∧
    savePlatformCall (some EditSlot.blank) draftMutated
      = NetCall.postPlatform draftMutated ∧
    savePlatformCall (some (EditSlot.entity platZero)) draftMutated
      = NetCall.postPlatform draftMutated :=
  ⟨(c10_save_dispatch (some (EditSlot.entity platA)) none draftMutated
      { name := "", capex := 0, mass := 0, power_consumption := 0,
        resolution_gsd := 0, fov := 0, daily_data_rate_gb := 0, market := "" }
        platA payA).1 7 rfl (by norm_num),
    (c10_save_dispatch (some EditSlot.blank) none draftMutated
      { name := "", capex := 0, mass := 0, power_consumption := 0,
        resolution_gsd := 0, fov := 0, daily_data_rate_gb := 0, market := "" }
        platA payA).2.1 rfl,
    (c10_save_dispatch (some (EditSlot.entity platZero)) none draftMutated
      { name := "", capex := 0, mass := 0, power_consumption := 0,
        resolution_gsd := 0, fov := 0, daily_data_rate_gb := 0, market := "" }
        platZero payA).2.2.2.1 rfl⟩

/-- If no form overlay is open then both editing slots are null. -/
theorem formOpen_eq_false (st : ManagerState) (h : formOpen st = false) :
    st.editingPlatform = none ∧ st.editingPayload = none := by
  cases hp : st.editingPlatform <;> cases hq : st.editingPayload <;>
    simp_all [formOpen]

/-- Every `AssetManager` event preserves the form-exclusion invariant:
at least one of the two editing slots stays null. -/
theorem mgrStep_exclusive (st : ManagerState) (e : MgrEvent)
    (h : st.editingPlatform = none ∨ st.editingPayload = none) :
    (mgrStep st e).editingPlatform = none ∨ (mgrStep st e).editingPayload = none := by
  cases e with
  | clickTab t =>
    simp only [mgrStep]
    split_ifs with hg
    · exact h
    · exact h
  | clickAddPlatform =>
    simp only [mgrStep]
    split_ifs with hg
    · exact Or.inr (formOpen_eq_false st hg.2).2
    · exact h
  | clickEditPlatform p =>
    simp only [mgrStep]
    split_ifs with hg
    · exact Or.inr (formOpen_eq_false st hg.2.1).2
    · exact h
  | clickDeletePlatform p confirmed callOk =>
    simp only [mgrStep]
    split_ifs with hg
    · cases confirmed <;> cases callOk <;> exact h
    · exact h
  | clickAddPayload =>
    simp only [mgrStep]
    split_ifs with hg
    · exact Or.inl (formOpen_eq_false st hg.2).1
    · exact h
  | clickEditPayload q =>
    simp only [mgrStep]
    split_ifs with hg
    · exact Or.inl (formOpen_eq_false st hg.2.1).1
    · exact h
  | clickDeletePayload q confirmed callOk =>
    simp only [mgrStep]
    split_ifs with hg
    · cases confirmed <;> cases callOk <;> exact h
    · exact h
  | submitPlatformForm data callOk =>
    simp only [mgrStep]
    split_ifs with hg
    · cases callOk
      · exact h
      · exact Or.inl rfl
    · exact h
  | submitPayloadForm data callOk =>
    simp only [mgrStep]
    split_ifs with hg
    · cases callOk
      · exact h
      · exact Or.inr rfl
    · exact h
  | cancelPlatformForm =>
    simp only [mgrStep]
    split_ifs with hg
    · exact Or.inl rfl
    · exact h
  | cancelPayloadForm =>
    simp only [mgrStep]
    split_ifs with hg
    · exact Or.inr rfl
    · exact h
  | refreshSettled pRes plRes =>
    cases pRes <;> cases plRes <;> exact h

/-- Claim C9: in every reachable `AssetManager` state the two form
sessions are mutually exclusive — a platform form and a payload form are
never open at the same time. Forms open only through list-area buttons,
which sit behind the `fixed inset-0` form overlays and so cannot fire
while either form is open; the delete confirmation is a synchronous
`confirm(...)` dialog that blocks the event loop for the duration of its
own event, so it never coexists with anything either. -/
theorem c9_modal_exclusion (s : ManagerState) (h : MgrReachable s) :
    ¬(s.editingPlatform.isSome = true ∧ s.editingPayload.isSome = true) := by
  have key : s.editingPlatform = none ∨ s.editingPayload = none := by
    induction h with
    | init => exact Or.inl rfl
    | step s e hs ih => exact mgrStep_exclusive s e ih
  rcases key with hk | hk <;> simp [hk]

/-- Witness for C9 at the initial (reachable) manager state. -/
theorem c9_modal_exclusion_witness :
    ¬(mgrInit.editingPlatform.isSome = true ∧ mgrInit.editingPayload.isSome = true) :=
  c9_modal_exclusion mgrInit MgrReachable.init

end InvolveSim
